import Mathlib

/-!
Verification of the MagTag meal-planner duty-cycle controller
(`magtag/code.py`) against its design specification.

The controller is shallowly embedded as follows:
* Side effects (rendering, LED fills, arming the wake alarm, the deep-sleep
  yield) become constructors of an event type `Ev`; each operation returns
  the list of events it emits, in program order.
* Monotonic time is modelled as exact rationals (`ℚ`).  The poll loop is
  idealised on the time axis: one iteration of the `while True` loop with no
  dispatched event advances the clock by exactly the `time.sleep(0.1)` poll
  interval, and the work inside an iteration is treated as instantaneous.
* Exceptions raised by `fetch` are modelled as `Except String _` values
  supplied by the environment, one per call site.
* The platform wake cause (`alarm.wake_alarm`) is an input `WakeReason`;
  `code.py` never reads it, which the model makes visible by taking it as an
  (unused) argument to the boot sequence.
* On real hardware `alarm.exit_and_deep_sleep_until_alarms` never returns, so
  the `Ev.sleepYield` event is terminal; the CPython `ImportError` fallback
  branch of `deep_sleep` is not modelled.
-/

namespace MealPlanner

/-- Baby meal slot: mapping from food category to optional text
(keys `cereal`, `fruit`, `yogurt`, `vegetable` read via `.get` in
`render_day`). -/
structure BabyMeal where
  cereal : Option String
  fruit : Option String
  yogurt : Option String
  vegetable : Option String
deriving DecidableEq, Repr

/-- Adult meal fields of a day (`day["adult"]["dinner"]`,
`day["adult"]["note"]`). -/
structure AdultMeal where
  dinner : Option String
  note : Option String
deriving DecidableEq, Repr

/-- One element of the `days` array returned by `/api/schedule/upcoming`. -/
structure DayPlan where
  day : String
  date : String
  adult : AdultMeal
  babyLunch : BabyMeal
  babyDinner : BabyMeal
deriving DecidableEq, Repr

/-- `REFRESH_MINUTES = int(os.getenv("REFRESH_MINUTES", "30"))` — default 30. -/
def REFRESH_MINUTES : ℚ := 30

/-- `IDLE_TIMEOUT_SECONDS = int(os.getenv("IDLE_TIMEOUT_SECONDS", "120"))` —
default 120. -/
def IDLE_TIMEOUT_SECONDS : ℚ := 120

/-- `DEBOUNCE_S = 0.3  # 300ms debounce between presses`. -/
def DEBOUNCE_S : ℚ := 3 / 10

/-- `time.sleep(0.1)  # 100ms poll interval` at the bottom of the loop. -/
def POLL_INTERVAL_S : ℚ := 1 / 10

/-- Observable effects of the controller, in program order.
`radioOff` is the Power Rail Manager operation `set_radio_power(false)` from
the specification (e.g. `wifi.radio.enabled = False`); `code.py` contains no
call that would emit it, and it is included so that its absence from traces
can be stated. -/
inductive Ev where
  | renderLoading
  | wifiConnect
  | readBattery
  | ledsFill (r g b : ℕ)
  | renderDay (idx : ℕ)
  | renderError (msg : String) (batt : ℚ)
  | armTimeAlarm (deadline : ℚ)
  | sleepYield
  | radioOff
deriving DecidableEq, Repr

/-- `deep_sleep()` (lines 266-277): `leds.fill((0,0,0))`, then arm
`alarm.time.TimeAlarm(monotonic_time=time.monotonic() + REFRESH_MINUTES * 60)`
and call `alarm.exit_and_deep_sleep_until_alarms(ta)`.  `now` is the value of
`time.monotonic()` at the call. -/
def deep_sleep (now : ℚ) : List Ev :=
  [Ev.ledsFill 0 0 0, Ev.armTimeAlarm (now + REFRESH_MINUTES * 60), Ev.sleepYield]

/-- `flash_neopixels(color)` (lines 115-119): fill with `color`, brief sleep,
fill black. -/
def flash_neopixels (r g b : ℕ) : List Ev :=
  [Ev.ledsFill r g b, Ev.ledsFill 0 0 0]

/-- The soft state of the interactive loop: the cached schedule `days`, the
pagination cursor `current_page`, the battery sample `batt`, the shared
debounce timer `last_press`, the idle timer `last_activity`, and the monotonic
time `now` at which the next iteration reads the clock. -/
structure LoopState where
  days : List DayPlan
  currentPage : ℕ
  batt : ℚ
  lastPress : ℚ
  lastActivity : ℚ
  now : ℚ
deriving DecidableEq, Repr

/-- Why the process (re)started, as reported by the platform.  Modelled from
the spec (section 3, `WakeReason`); `code.py` itself never inspects the wake
cause. -/
inductive WakeReason where
  | freshBoot
  | timerWake
  | buttonWake (id : ℕ)
deriving DecidableEq, Repr

/-- Module-level boot sequence of `code.py` (lines 281-308):
`render_loading()`, `connect()` (fresh boot: radio not yet connected, so the
red fill and the WiFi connect both happen), battery read, then the guarded
initial `fetch`.  On a fetch exception: orange fill, `render_error(e, batt)`,
`deep_sleep()` — no loop state is produced.  On success (`fetch` fills blue
then black, line 293 fills black again): `current_page = 0`,
`render_day(days, 0, batt)`, and the loop starts with `last_press` and
`last_activity` set to the current monotonic time `t0`.
The wake cause `w` is ignored, exactly as in the source. -/
def boot (w : WakeReason) (fetchRes : Except String (List DayPlan))
    (batt t0 : ℚ) : List Ev × Option LoopState :=
  let pre := [Ev.renderLoading, Ev.ledsFill 255 0 0, Ev.wifiConnect, Ev.readBattery]
  match fetchRes with
  | Except.error e =>
      (pre ++ [Ev.ledsFill 0 0 255, Ev.ledsFill 255 50 0, Ev.renderError e batt]
          ++ deep_sleep t0, none)
  | Except.ok ds =>
      (pre ++ [Ev.ledsFill 0 0 255, Ev.ledsFill 0 0 0, Ev.ledsFill 0 0 0,
          Ev.renderDay 0],
       some { days := ds, currentPage := 0, batt := batt,
              lastPress := t0, lastActivity := t0, now := t0 })

/-- Index of the first button whose electrical value is low (`not btn.value`,
active-low with pull-ups), scanning in the fixed order A, B, C, D.  The
Python loop `break`s at the first active button whether or not the debounce
check passes, so later buttons are never examined. -/
def firstActive : List Bool → Option ℕ
  | [] => none
  | v :: rest => if v then (firstActive rest).map (· + 1) else some 0

/-- Result of one execution of the button-scan block (lines 318-326). -/
structure PollOut where
  pressed : Option ℕ
  lastPress : ℚ
  lastActivity : ℚ
deriving DecidableEq, Repr

/-- The button-scan block (lines 318-326): the first active button is
considered; the press is reported only if at least `DEBOUNCE_S` has elapsed
since `last_press` — a single timer shared by all buttons — and reporting
updates both `last_press` and `last_activity` to `now`. -/
def pollButtons (vals : List Bool) (now lastPress lastActivity : ℚ) : PollOut :=
  match firstActive vals with
  | none => ⟨none, lastPress, lastActivity⟩
  | some i =>
      if DEBOUNCE_S ≤ now - lastPress then ⟨some i, now, now⟩
      else ⟨none, lastPress, lastActivity⟩

/-- Outcome of one loop iteration: continue with a new state, or the
(terminal) deep-sleep yield. -/
inductive StepOut where
  | cont (s : LoopState)
  | slept
deriving DecidableEq, Repr

/-- One iteration of the `while True` loop (lines 310-359).
`vals` are the four electrical button values this iteration observes;
`fetchRes` and `newBatt` are consumed only if button C is dispatched.
Order as in the source: read `now`; idle-timeout check (`>=`, so
`deep_sleep()` fires at the deadline exactly); button scan with shared
debounce; dispatch A (previous, clamped at 0), B (next, clamped at
`len(days) - 1`, Python integer semantics so the comparison is over `ℤ`),
C (refresh: on success the battery is re-read, `current_page = 0`, render;
on failure `render_error(e, batt)` with the old battery value and the old
state kept), D (manual `deep_sleep()`); finally `time.sleep(0.1)`. -/
def loopStep (s : LoopState) (vals : List Bool)
    (fetchRes : Except String (List DayPlan)) (newBatt : ℚ) :
    List Ev × StepOut :=
  if IDLE_TIMEOUT_SECONDS ≤ s.now - s.lastActivity then
    (deep_sleep s.now, StepOut.slept)
  else
    let p := pollButtons vals s.now s.lastPress s.lastActivity
    let s1 : LoopState :=
      { s with lastPress := p.lastPress, lastActivity := p.lastActivity }
    match p.pressed with
    | some 0 =>
        if 0 < s1.currentPage then
          (flash_neopixels 255 255 255 ++ [Ev.renderDay (s1.currentPage - 1)],
           StepOut.cont { s1 with currentPage := s1.currentPage - 1,
                                  now := s.now + POLL_INTERVAL_S })
        else
          (flash_neopixels 255 255 255,
           StepOut.cont { s1 with now := s.now + POLL_INTERVAL_S })
    | some 1 =>
        if (s1.currentPage : ℤ) < (s1.days.length : ℤ) - 1 then
          (flash_neopixels 255 255 255 ++ [Ev.renderDay (s1.currentPage + 1)],
           StepOut.cont { s1 with currentPage := s1.currentPage + 1,
                                  now := s.now + POLL_INTERVAL_S })
        else
          (flash_neopixels 255 255 255,
           StepOut.cont { s1 with now := s.now + POLL_INTERVAL_S })
    | some 2 =>
        match fetchRes with
        | Except.ok ds =>
            (flash_neopixels 0 0 255 ++
               [Ev.ledsFill 0 0 255, Ev.ledsFill 0 0 0, Ev.readBattery,
                Ev.renderDay 0],
             StepOut.cont { s1 with days := ds, batt := newBatt,
                                    currentPage := 0,
                                    now := s.now + POLL_INTERVAL_S })
        | Except.error e =>
            (flash_neopixels 0 0 255 ++
               [Ev.ledsFill 0 0 255, Ev.renderError e s1.batt],
             StepOut.cont { s1 with now := s.now + POLL_INTERVAL_S })
    | some 3 =>
        (flash_neopixels 255 0 0 ++ deep_sleep s.now, StepOut.slept)
    | _ =>
        ([], StepOut.cont { s1 with now := s.now + POLL_INTERVAL_S })

/-- Environment inputs consumed by one loop iteration. -/
structure StepInput where
  vals : List Bool
  fetchRes : Except String (List DayPlan)
  newBatt : ℚ
deriving Repr

/-- Run the loop over a list of per-iteration inputs, concatenating the
emitted events; a `slept` outcome is terminal. -/
def runLoop : LoopState → List StepInput → List Ev × StepOut
  | s, [] => ([], StepOut.cont s)
  | s, inp :: rest =>
      match loopStep s inp.vals inp.fetchRes inp.newBatt with
      | (evs, StepOut.cont s') =>
          let r := runLoop s' rest
          (evs ++ r.1, r.2)
      | (evs, StepOut.slept) => (evs, StepOut.slept)

/-- Recogniser for `render_error` events. -/
def Ev.isRenderError : Ev → Bool
  | Ev.renderError _ _ => true
  | _ => false

/-- Recogniser for `render_day` events. -/
def Ev.isRenderDay : Ev → Bool
  | Ev.renderDay _ => true
  | _ => false

/-- Recogniser for the white fill issued by `flash_neopixels((255,255,255))`;
it occurs exactly once per dispatched A/B button event. -/
def Ev.isWhiteFill : Ev → Bool
  | Ev.ledsFill 255 255 255 => true
  | _ => false

/-- `fetch` results the schedule API actually produces: an error, or a
non-empty `days` list (the endpoint serves "the next 3 days"). -/
def fetchNonempty : Except String (List DayPlan) → Bool
  | Except.ok ds => !ds.isEmpty
  | Except.error _ => true

/-- A sample day, for concrete executions. -/
def sampleDay : DayPlan :=
  { day := "Monday", date := "2026-10-12",
    adult := { dinner := some "Tacos", note := none },
    babyLunch := { cereal := some "Oat", fruit := none, yogurt := none,
                   vegetable := none },
    babyDinner := { cereal := none, fruit := some "Pear", yogurt := none,
                    vegetable := some "Peas" } }

/-- A second sample day. -/
def sampleDay2 : DayPlan :=
  { day := "Tuesday", date := "2026-10-13",
    adult := { dinner := some "Soup", note := some "leftovers" },
    babyLunch := { cereal := none, fruit := some "Apple", yogurt := some "Plain",
                   vegetable := none },
    babyDinner := { cereal := some "Rice", fruit := none, yogurt := none,
                    vegetable := none } }

/-- A loop state as produced by a successful boot fetch of two days at
time 0, observed one second into the loop (so the debounce window from loop
entry has elapsed). -/
def sampleState : LoopState :=
  { days := [sampleDay, sampleDay2], currentPage := 0, batt := 4,
    lastPress := 0, lastActivity := 0, now := 1 }

/-- All four buttons released (pull-ups read high). -/
def idleVals : List Bool := [true, true, true, true]

/-- An iteration in which no button is touched. -/
def idleInput : StepInput :=
  { vals := idleVals, fetchRes := Except.error "", newBatt := 0 }

/-- Button A (index 0) held, others released. -/
def holdAVals : List Bool := [false, true, true, true]

/-- An iteration during which button A is electrically active. -/
def holdAInput : StepInput :=
  { vals := holdAVals, fetchRes := Except.error "", newBatt := 0 }

/-- Loop state at loop entry time 0 (as set by lines 307-308). -/
def entryState : LoopState :=
  { days := [sampleDay, sampleDay2], currentPage := 0, batt := 4,
    lastPress := 0, lastActivity := 0, now := 0 }

/-! ### Helper lemmas about single loop iterations -/

/-- An iteration that observes no active button and no idle timeout emits
nothing and only advances the clock by one poll interval. -/
theorem loopStep_quiet (s : LoopState) (fr : Except String (List DayPlan))
    (nb : ℚ) (hidle : s.now - s.lastActivity < IDLE_TIMEOUT_SECONDS) :
    loopStep s idleVals fr nb =
      ([], StepOut.cont { s with now := s.now + POLL_INTERVAL_S }) := by
  simp [loopStep, pollButtons, firstActive, idleVals, not_le.mpr hidle]

/-- An iteration whose idle-timeout check fires calls `deep_sleep` and the
outcome is terminal. -/
theorem loopStep_timeout (s : LoopState) (vals : List Bool)
    (fr : Except String (List DayPlan)) (nb : ℚ)
    (hidle : IDLE_TIMEOUT_SECONDS ≤ s.now - s.lastActivity) :
    loopStep s vals fr nb = (deep_sleep s.now, StepOut.slept) := by
  simp [loopStep, hidle]

/-- Dispatch of button C when the fetch raises: `render_error` with the old
battery value; `days`, `current_page`, `batt` untouched. -/
theorem loopStep_refresh_error (s : LoopState) (vals : List Bool) (e : String)
    (nb : ℚ) (hidle : s.now - s.lastActivity < IDLE_TIMEOUT_SECONDS)
    (hact : firstActive vals = some 2)
    (hdeb : DEBOUNCE_S ≤ s.now - s.lastPress) :
    loopStep s vals (Except.error e) nb =
      (flash_neopixels 0 0 255 ++ [Ev.ledsFill 0 0 255, Ev.renderError e s.batt],
       StepOut.cont { s with lastPress := s.now, lastActivity := s.now,
                             now := s.now + POLL_INTERVAL_S }) := by
  simp [loopStep, pollButtons, hact, not_le.mpr hidle, hdeb]

/-- Dispatch of button C when the fetch succeeds: battery re-read,
`current_page = 0`, `render_day(days, 0, batt)`. -/
theorem loopStep_refresh_ok (s : LoopState) (vals : List Bool)
    (ds : List DayPlan) (nb : ℚ)
    (hidle : s.now - s.lastActivity < IDLE_TIMEOUT_SECONDS)
    (hact : firstActive vals = some 2)
    (hdeb : DEBOUNCE_S ≤ s.now - s.lastPress) :
    loopStep s vals (Except.ok ds) nb =
      (flash_neopixels 0 0 255 ++
         [Ev.ledsFill 0 0 255, Ev.ledsFill 0 0 0, Ev.readBattery,
          Ev.renderDay 0],
       StepOut.cont { s with days := ds, batt := nb, currentPage := 0,
                             lastPress := s.now, lastActivity := s.now,
                             now := s.now + POLL_INTERVAL_S }) := by
  simp [loopStep, pollButtons, hact, not_le.mpr hidle, hdeb]

/-- Dispatch of button A at page 0: no page change, no `render_day`. -/
theorem loopStep_prev_clamped (s : LoopState) (vals : List Bool)
    (fr : Except String (List DayPlan)) (nb : ℚ)
    (hidle : s.now - s.lastActivity < IDLE_TIMEOUT_SECONDS)
    (hact : firstActive vals = some 0)
    (hdeb : DEBOUNCE_S ≤ s.now - s.lastPress)
    (hpage : s.currentPage = 0) :
    loopStep s vals fr nb =
      (flash_neopixels 255 255 255,
       StepOut.cont { s with lastPress := s.now, lastActivity := s.now,
                             now := s.now + POLL_INTERVAL_S }) := by
  simp [loopStep, pollButtons, hact, not_le.mpr hidle, hdeb, hpage]

/-- Dispatch of button B at the last page: no page change, no `render_day`. -/
theorem loopStep_next_clamped (s : LoopState) (vals : List Bool)
    (fr : Except String (List DayPlan)) (nb : ℚ)
    (hidle : s.now - s.lastActivity < IDLE_TIMEOUT_SECONDS)
    (hact : firstActive vals = some 1)
    (hdeb : DEBOUNCE_S ≤ s.now - s.lastPress)
    (hpage : s.currentPage = s.days.length - 1) :
    loopStep s vals fr nb =
      (flash_neopixels 255 255 255,
       StepOut.cont { s with lastPress := s.now, lastActivity := s.now,
                             now := s.now + POLL_INTERVAL_S }) := by
  have hclamp : ¬ ((s.currentPage : ℤ) < (s.days.length : ℤ) - 1) := by
    rw [hpage]
    omega
  simp [loopStep, pollButtons, hact, not_le.mpr hidle, hdeb, hclamp]

/-- A single iteration preserves the pagination invariant
`current_page < len(days)` provided a successful fetch never delivers an
empty `days` list. -/
theorem loopStep_page_bound (s : LoopState) (vals : List Bool)
    (fr : Except String (List DayPlan)) (nb : ℚ) (s' : LoopState)
    (hinv : s.currentPage < s.days.length)
    (hf : fetchNonempty fr = true)
    (hc : (loopStep s vals fr nb).2 = StepOut.cont s') :
    s'.currentPage < s'.days.length := by
  simp only [loopStep] at hc
  split at hc
  · simp at hc
  · split at hc
    next =>
      split at hc
      · simp only [StepOut.cont.injEq] at hc
        subst hc
        simp only
        omega
      · simp only [StepOut.cont.injEq] at hc
        subst hc
        simpa using hinv
    next =>
      split at hc
      next h =>
        simp only [StepOut.cont.injEq] at hc
        subst hc
        simp only at h ⊢
        omega
      next =>
        simp only [StepOut.cont.injEq] at hc
        subst hc
        simpa using hinv
    next =>
      split at hc
      next =>
        simp only [StepOut.cont.injEq] at hc
        subst hc
        simp [fetchNonempty] at hf
        simpa using List.length_pos.mpr hf
      next =>
        simp only [StepOut.cont.injEq] at hc
        subst hc
        simpa using hinv
    next =>
      simp at hc
    next =>
      simp only [StepOut.cont.injEq] at hc
      subst hc
      simpa using hinv

/-- The pagination invariant is preserved by any run of the loop, given that
successful fetches deliver non-empty schedules. -/
theorem runLoop_page_bound (inputs : List StepInput) (s : LoopState)
    (hinv : s.currentPage < s.days.length)
    (hf : ∀ inp ∈ inputs, fetchNonempty inp.fetchRes = true)
    (evs : List Ev) (s' : LoopState)
    (hrun : runLoop s inputs = (evs, StepOut.cont s')) :
    s'.currentPage < s'.days.length := by
  induction inputs generalizing s evs with
  | nil =>
      simp only [runLoop, Prod.mk.injEq, StepOut.cont.injEq] at hrun
      exact hrun.2 ▸ hinv
  | cons inp rest ih =>
      rw [runLoop] at hrun
      rcases hstep : loopStep s inp.vals inp.fetchRes inp.newBatt with ⟨evs1, out⟩
      rw [hstep] at hrun
      cases out with
      | cont s1 =>
          simp only [Prod.mk.injEq] at hrun
          have h1 : s1.currentPage < s1.days.length :=
            loopStep_page_bound s inp.vals inp.fetchRes inp.newBatt s1 hinv
              (hf inp (by simp)) (by rw [hstep])
          exact ih s1 h1 (fun i hi => hf i (by simp [hi]))
            ((runLoop s1 rest).1)
            (by rw [← hrun.2])
      | slept =>
          simp at hrun

/-- Running `k` quiet iterations (no button active) from a state that never
reaches the idle deadline during them emits no events and advances the clock
by exactly `k` poll intervals. -/
theorem runLoop_idle_run (k : ℕ) (s : LoopState)
    (h : ∀ j : ℕ, j < k →
        s.now + j * POLL_INTERVAL_S - s.lastActivity < IDLE_TIMEOUT_SECONDS) :
    runLoop s (List.replicate k idleInput) =
      ([], StepOut.cont { s with now := s.now + k * POLL_INTERVAL_S }) := by
  induction k generalizing s with
  | zero =>
      simp [runLoop]
  | succ k ih =>
      have h0 : s.now - s.lastActivity < IDLE_TIMEOUT_SECONDS := by
        simpa using h 0 (Nat.succ_pos k)
      have hq : loopStep s idleInput.vals idleInput.fetchRes idleInput.newBatt =
          ([], StepOut.cont { s with now := s.now + POLL_INTERVAL_S }) :=
        loopStep_quiet s idleInput.fetchRes idleInput.newBatt h0
      have hcond : ∀ j : ℕ, j < k →
          ({ s with now := s.now + POLL_INTERVAL_S } : LoopState).now
              + j * POLL_INTERVAL_S
              - ({ s with now := s.now + POLL_INTERVAL_S } : LoopState).lastActivity
            < IDLE_TIMEOUT_SECONDS := by
        intro j hj
        have := h (j + 1) (by omega)
        simp only
        push_cast at this ⊢
        linarith
      have hrest : runLoop ({ s with now := s.now + POLL_INTERVAL_S })
            (List.replicate k idleInput) =
          ([], StepOut.cont
            { s with now := s.now + POLL_INTERVAL_S + (k : ℚ) * POLL_INTERVAL_S }) :=
        ih { s with now := s.now + POLL_INTERVAL_S } hcond
      rw [List.replicate_succ, runLoop, hq]
      dsimp only
      rw [hrest]
      simp only [List.nil_append, Prod.mk.injEq, StepOut.cont.injEq,
        LoopState.mk.injEq, true_and]
      push_cast
      ring

/-- Button values with only button C (index 2) electrically active. -/
def cVals : List Bool := [true, true, false, true]

/-- Any iteration whose outcome is `slept` emitted exactly a `deep_sleep`
call at the iteration's clock value, possibly preceded by the red
button-D feedback flash. -/
theorem loopStep_slept_shape (s : LoopState) (vals : List Bool)
    (fr : Except String (List DayPlan)) (nb : ℚ)
    (hslept : (loopStep s vals fr nb).2 = StepOut.slept) :
    loopStep s vals fr nb = (deep_sleep s.now, StepOut.slept) ∨
    loopStep s vals fr nb =
      (flash_neopixels 255 0 0 ++ deep_sleep s.now, StepOut.slept) := by
  by_cases hidle : IDLE_TIMEOUT_SECONDS ≤ s.now - s.lastActivity
  · exact Or.inl (loopStep_timeout s vals fr nb hidle)
  · rcases hp : (pollButtons vals s.now s.lastPress s.lastActivity).pressed with _ | i
    · simp only [loopStep, if_neg hidle, hp] at hslept
      simp at hslept
    · rcases i with _ | _ | _ | _ | n
      · simp only [loopStep, if_neg hidle, hp] at hslept
        split at hslept <;> simp at hslept
      · simp only [loopStep, if_neg hidle, hp] at hslept
        split at hslept <;> simp at hslept
      · simp only [loopStep, if_neg hidle, hp] at hslept
        split at hslept <;> simp at hslept
      · refine Or.inr ?_
        simp only [loopStep, if_neg hidle, hp]
      · simp only [loopStep, if_neg hidle, hp] at hslept
        simp at hslept

/-- C1 counterexample: a manual-refresh fetch failure (button C dispatched,
`fetch` raises) invokes `render_error` once but the controller does NOT
reach the deep-sleep yield — it stays in the interactive loop, contradicting
the claim that every `FetchError` leads to `SLEEPING` without the loop. -/
theorem c1_counterexample :
    (loopStep sampleState cVals (Except.error "boom") 4).2 ≠ StepOut.slept ∧
    Ev.sleepYield ∉ (loopStep sampleState cVals (Except.error "boom") 4).1 ∧
    (loopStep sampleState cVals (Except.error "boom") 4).1.countP
        Ev.isRenderError = 1 := by
  have h := loopStep_refresh_error sampleState cVals "boom" 4
    (by norm_num [sampleState, IDLE_TIMEOUT_SECONDS]) rfl
    (by norm_num [sampleState, DEBOUNCE_S])
  rw [h]
  refine ⟨by simp, ?_, rfl⟩
  simp [flash_neopixels]

/-- C1 (amended): a `FetchError` in the boot-time fetch invokes
`render_error` exactly once and the controller reaches the deep-sleep yield
without entering the poll loop; a `FetchError` in a manual-refresh fetch
invokes `render_error` exactly once for that error, but the controller
stays in the interactive loop (no sleep yield from that dispatch). -/
theorem c1_fetch_error_paths :
    (∀ (w : WakeReason) (e : String) (b t : ℚ),
        (boot w (Except.error e) b t).1.countP Ev.isRenderError = 1 ∧
        Ev.sleepYield ∈ (boot w (Except.error e) b t).1 ∧
        (boot w (Except.error e) b t).2 = none) ∧
    (∀ (s : LoopState) (vals : List Bool) (e : String) (nb : ℚ),
        s.now - s.lastActivity < IDLE_TIMEOUT_SECONDS →
        firstActive vals = some 2 →
        DEBOUNCE_S ≤ s.now - s.lastPress →
        (loopStep s vals (Except.error e) nb).1.countP Ev.isRenderError = 1 ∧
        Ev.sleepYield ∉ (loopStep s vals (Except.error e) nb).1 ∧
        (loopStep s vals (Except.error e) nb).2 =
          StepOut.cont { s with lastPress := s.now, lastActivity := s.now,
                                now := s.now + POLL_INTERVAL_S }) := by
  constructor
  · intro w e b t
    refine ⟨rfl, ?_, rfl⟩
    simp [boot, deep_sleep]
  · intro s vals e nb hidle hact hdeb
    rw [loopStep_refresh_error s vals e nb hidle hact hdeb]
    refine ⟨rfl, ?_, rfl⟩
    simp [flash_neopixels]

/-- C2 counterexample: the boot-time fetch-failure path reaches the
deep-sleep yield without any `set_radio_power(false)` call ever occurring,
contradicting the claim that disabling the radio is the last
power-management action on every path into sleep. -/
theorem c2_counterexample :
    Ev.sleepYield ∈ (boot WakeReason.freshBoot (Except.error "down") 4 0).1 ∧
    Ev.radioOff ∉ (boot WakeReason.freshBoot (Except.error "down") 4 0).1 := by
  constructor <;> simp [boot, deep_sleep]

/-- C2 (amended): on every path into deep sleep the last power-management
action before the sleep yield is switching the NeoPixels off
(`leds.fill((0,0,0))` inside `deep_sleep`), followed only by arming the
time alarm; the radio is never explicitly disabled (no `radioOff` event
occurs on any sleep path). -/
theorem c2_last_power_action_led_off :
    (∀ (w : WakeReason) (e : String) (b t : ℚ),
        ∃ pre, (boot w (Except.error e) b t).1 =
            pre ++ [Ev.ledsFill 0 0 0,
              Ev.armTimeAlarm (t + REFRESH_MINUTES * 60), Ev.sleepYield] ∧
          Ev.radioOff ∉ (boot w (Except.error e) b t).1) ∧
    (∀ (s : LoopState) (vals : List Bool) (fr : Except String (List DayPlan))
        (nb : ℚ),
        (loopStep s vals fr nb).2 = StepOut.slept →
        ∃ pre, (loopStep s vals fr nb).1 =
            pre ++ [Ev.ledsFill 0 0 0,
              Ev.armTimeAlarm (s.now + REFRESH_MINUTES * 60), Ev.sleepYield] ∧
          Ev.radioOff ∉ (loopStep s vals fr nb).1) := by
  constructor
  · intro w e b t
    refine ⟨[Ev.renderLoading, Ev.ledsFill 255 0 0, Ev.wifiConnect,
      Ev.readBattery, Ev.ledsFill 0 0 255, Ev.ledsFill 255 50 0,
      Ev.renderError e b], rfl, ?_⟩
    simp [boot, deep_sleep]
  · intro s vals fr nb hslept
    rcases loopStep_slept_shape s vals fr nb hslept with h | h <;> rw [h]
    · exact ⟨[], rfl, by simp [deep_sleep]⟩
    · exact ⟨flash_neopixels 255 0 0, rfl, by simp [deep_sleep, flash_neopixels]⟩

/-- C3: over any sequence of dispatched button events (with successful
fetches delivering non-empty schedules, as `/api/schedule/upcoming` does),
`current_page` stays within `[0, len(days) - 1]`; pressing A (previous) at
index 0 is a no-op with no re-render, and pressing B (next) at the last
index is a no-op with no re-render. -/
theorem c3_pagination_clamped :
    (∀ (inputs : List StepInput) (s : LoopState),
        s.currentPage < s.days.length →
        (∀ inp ∈ inputs, fetchNonempty inp.fetchRes = true) →
        ∀ (evs : List Ev) (s' : LoopState),
          runLoop s inputs = (evs, StepOut.cont s') →
          s'.currentPage < s'.days.length) ∧
    (∀ (s : LoopState) (vals : List Bool) (fr : Except String (List DayPlan))
        (nb : ℚ),
        s.now - s.lastActivity < IDLE_TIMEOUT_SECONDS →
        firstActive vals = some 0 →
        DEBOUNCE_S ≤ s.now - s.lastPress →
        s.currentPage = 0 →
        (loopStep s vals fr nb).2 =
            StepOut.cont { s with lastPress := s.now, lastActivity := s.now,
                                  now := s.now + POLL_INTERVAL_S } ∧
          (loopStep s vals fr nb).1.countP Ev.isRenderDay = 0) ∧
    (∀ (s : LoopState) (vals : List Bool) (fr : Except String (List DayPlan))
        (nb : ℚ),
        s.now - s.lastActivity < IDLE_TIMEOUT_SECONDS →
        firstActive vals = some 1 →
        DEBOUNCE_S ≤ s.now - s.lastPress →
        s.currentPage = s.days.length - 1 →
        (loopStep s vals fr nb).2 =
            StepOut.cont { s with lastPress := s.now, lastActivity := s.now,
                                  now := s.now + POLL_INTERVAL_S } ∧
          (loopStep s vals fr nb).1.countP Ev.isRenderDay = 0) := by
  refine ⟨?_, ?_, ?_⟩
  · intro inputs s hinv hf evs s' hrun
    exact runLoop_page_bound inputs s hinv hf evs s' hrun
  · intro s vals fr nb hidle hact hdeb hpage
    rw [loopStep_prev_clamped s vals fr nb hidle hact hdeb hpage]
    exact ⟨rfl, rfl⟩
  · intro s vals fr nb hidle hact hdeb hpage
    rw [loopStep_next_clamped s vals fr nb hidle hact hdeb hpage]
    exact ⟨rfl, rfl⟩

/-- C4: the debounce timer is shared across all buttons: whenever less than
`DEBOUNCE_S` has elapsed since the last reported press (on any button), a
poll reports nothing no matter which buttons are active; and a reported
press is always the first currently-active button in scan order, with both
timers set to `now` — so at most one event is produced per debounce window
and at most one per poll call. -/
theorem c4_debounce_shared_timer (vals : List Bool) (now lp la : ℚ) :
    (now - lp < DEBOUNCE_S → pollButtons vals now lp la = ⟨none, lp, la⟩) ∧
    (∀ i : ℕ, (pollButtons vals now lp la).pressed = some i →
        firstActive vals = some i ∧ DEBOUNCE_S ≤ now - lp ∧
          pollButtons vals now lp la = ⟨some i, now, now⟩) := by
  unfold pollButtons
  cases hfa : firstActive vals with
  | none =>
      exact ⟨fun _ => rfl, fun i hi => by simp at hi⟩
  | some j =>
      dsimp only
      by_cases hd : DEBOUNCE_S ≤ now - lp
      · rw [if_pos hd]
        refine ⟨fun h => absurd hd (not_le.mpr h), fun i hi => ?_⟩
        simp at hi
        subst hi
        exact ⟨rfl, hd, rfl⟩
      · rw [if_neg hd]
        exact ⟨fun _ => rfl, fun i hi => by simp at hi⟩

/-- C5 counterexample: starting at loop entry with button A held
electrically active at every single poll (never released), the loop
dispatches two A events within 8 polls (at 0.3 s and 0.6 s) — the poller is
level-triggered, so a continuously held button produces more than one
logical press event, contradicting the claim. -/
theorem c5_counterexample :
    (runLoop entryState (List.replicate 8 holdAInput)).1.countP
        Ev.isWhiteFill = 2 := by
  norm_num [runLoop, loopStep, pollButtons, firstActive, entryState,
    holdAInput, holdAVals, DEBOUNCE_S, IDLE_TIMEOUT_SECONDS, POLL_INTERVAL_S,
    flash_neopixels, List.replicate, List.countP, List.countP.go,
    Ev.isWhiteFill]

/-- C5 (amended): the poller is level-triggered, not edge-triggered: a poll
reports the first currently-active button whenever the shared 300 ms
debounce interval has elapsed since the last reported press, regardless of
whether that button was already active at earlier polls; within the
debounce window it reports nothing.  Consequently a continuously held
button yields one event per debounce interval, not one per physical
press. -/
theorem c5_level_triggered (vals : List Bool) (now lp la : ℚ) (i : ℕ)
    (hact : firstActive vals = some i) :
    (DEBOUNCE_S ≤ now - lp → (pollButtons vals now lp la).pressed = some i) ∧
    (now - lp < DEBOUNCE_S → (pollButtons vals now lp la).pressed = none) := by
  unfold pollButtons
  rw [hact]
  dsimp only
  constructor
  · intro h
    rw [if_pos h]
  · intro h
    rw [if_neg (not_le.mpr h)]

/-- C6 counterexample: on a timer-triggered wake the very first action is
still `render_loading()` — the loading page is rendered on every wake, not
only on a fresh boot, contradicting the claim. -/
theorem c6_counterexample :
    (boot WakeReason.timerWake (Except.ok [sampleDay]) 4 0).1.head? =
      some Ev.renderLoading := rfl

/-- C6 (amended): `render_loading()` is executed unconditionally at every
process start; the boot behaviour is identical for every wake reason
because `code.py` never inspects the platform wake cause, so a display
refresh cycle is spent on the loading page on timer and button wakes too. -/
theorem c6_loading_every_wake (w w' : WakeReason)
    (fr : Except String (List DayPlan)) (b t : ℚ) :
    boot w fr b t = boot w' fr b t ∧
      (boot w fr b t).1.head? = some Ev.renderLoading := by
  refine ⟨rfl, ?_⟩
  cases fr <;> rfl

/-- If a run emits nothing and continues in state `s1`, appending one more
iteration that deep-sleeps makes the whole run deep-sleep with exactly that
iteration's events. -/
theorem runLoop_snoc_sleep (l : List StepInput) (s s1 : LoopState)
    (inp : StepInput)
    (h1 : runLoop s l = ([], StepOut.cont s1))
    (h2 : loopStep s1 inp.vals inp.fetchRes inp.newBatt =
      (deep_sleep s1.now, StepOut.slept)) :
    runLoop s (l ++ [inp]) = (deep_sleep s1.now, StepOut.slept) := by
  induction l generalizing s with
  | nil =>
      simp only [runLoop, Prod.mk.injEq, StepOut.cont.injEq] at h1
      rw [h1.2]
      simp [runLoop, h2]
  | cons a rest ih =>
      rcases hstep : loopStep s a.vals a.fetchRes a.newBatt with ⟨evs, out⟩
      rw [runLoop, hstep] at h1
      cases out with
      | cont s' =>
          simp only [Prod.mk.injEq] at h1
          have hevs : evs = [] := by
            have := h1.1
            exact List.append_eq_nil.mp this |>.1
          have hrest : (runLoop s' rest).1 = [] := by
            have := h1.1
            exact List.append_eq_nil.mp this |>.2
          have h1' : runLoop s' rest = ([], StepOut.cont s1) := by
            rw [Prod.ext_iff]
            exact ⟨hrest, h1.2⟩
          rw [List.cons_append, runLoop, hstep]
          subst hevs
          dsimp only
          rw [ih s' h1']
          simp
      | slept =>
          simp at h1

/-- C7: with the idle timer and the clock aligned (as they are right after
loop entry or any dispatched event), a quiet run keeps polling every
`POLL_INTERVAL_S` for as long as the `IDLE_TIMEOUT_SECONDS` deadline has
not been reached (1200 polls at the default 120 s / 0.1 s), and the run
deep-sleeps at a clock value that is at least the deadline and less than
one poll interval past it; moreover every reported press resets the idle
timer to the current clock. -/
theorem c7_idle_timeout_within_poll (s : LoopState)
    (ha : s.lastActivity = s.now) :
    (∀ k : ℕ, k < 1200 →
        runLoop s (List.replicate k idleInput) =
          ([], StepOut.cont { s with now := s.now + k * POLL_INTERVAL_S })) ∧
    (∃ tsleep : ℚ,
        runLoop s (List.replicate 1201 idleInput) =
          (deep_sleep tsleep, StepOut.slept) ∧
        s.lastActivity + IDLE_TIMEOUT_SECONDS ≤ tsleep ∧
        tsleep < s.lastActivity + IDLE_TIMEOUT_SECONDS + POLL_INTERVAL_S) ∧
    (∀ (vals : List Bool) (i : ℕ),
        (pollButtons vals s.now s.lastPress s.lastActivity).pressed = some i →
        (pollButtons vals s.now s.lastPress s.lastActivity).lastActivity =
          s.now) := by
  have hquiet : ∀ k : ℕ, k ≤ 1200 → ∀ j : ℕ, j < k →
      s.now + j * POLL_INTERVAL_S - s.lastActivity < IDLE_TIMEOUT_SECONDS := by
    intro k hk j hj
    rw [ha]
    have hj' : (j : ℚ) ≤ 1199 := by
      have : j ≤ 1199 := by omega
      exact_mod_cast this
    rw [POLL_INTERVAL_S, IDLE_TIMEOUT_SECONDS]
    linarith
  refine ⟨?_, ?_, ?_⟩
  · intro k hk
    exact runLoop_idle_run k s (hquiet k (by omega))
  · have h1200 := runLoop_idle_run 1200 s (hquiet 1200 (by omega))
    have hnow : ({ s with now := s.now + (1200 : ℕ) * POLL_INTERVAL_S } :
        LoopState).now = s.now + 120 := by
      simp only
      rw [POLL_INTERVAL_S]
      norm_num
    have hstep : loopStep { s with now := s.now + (1200 : ℕ) * POLL_INTERVAL_S }
          idleInput.vals idleInput.fetchRes idleInput.newBatt =
        (deep_sleep ({ s with now := s.now + (1200 : ℕ) * POLL_INTERVAL_S } :
          LoopState).now, StepOut.slept) := by
      apply loopStep_timeout
      simp only
      rw [ha, POLL_INTERVAL_S, IDLE_TIMEOUT_SECONDS]
      push_cast
      linarith
    refine ⟨s.now + (1200 : ℕ) * POLL_INTERVAL_S, ?_, ?_, ?_⟩
    · rw [show (1201 : ℕ) = 1200 + 1 from rfl, List.replicate_succ']
      exact runLoop_snoc_sleep (List.replicate 1200 idleInput) s _ idleInput
        h1200 hstep
    · rw [ha, POLL_INTERVAL_S, IDLE_TIMEOUT_SECONDS]
      push_cast
      linarith
    · rw [ha, POLL_INTERVAL_S, IDLE_TIMEOUT_SECONDS]
      push_cast
      linarith
  · intro vals i hi
    unfold pollButtons at hi ⊢
    cases hfa : firstActive vals with
    | none =>
        rw [hfa] at hi
        simp at hi
    | some j =>
        rw [hfa] at hi
        dsimp only at hi ⊢
        by_cases hd : DEBOUNCE_S ≤ s.now - s.lastPress
        · rw [if_pos hd]
        · rw [if_neg hd] at hi
          simp at hi

/-- C8: every path into deep sleep — boot-time fetch failure, idle timeout,
manual sleep via button D — ends by arming a time alarm whose monotonic
deadline is the clock value at the sleep transition plus
`REFRESH_MINUTES * 60` seconds, immediately followed by the sleep yield. -/
theorem c8_time_alarm_every_sleep :
    (∀ (w : WakeReason) (e : String) (b t : ℚ),
        ∃ pre, (boot w (Except.error e) b t).1 =
          pre ++ [Ev.armTimeAlarm (t + REFRESH_MINUTES * 60), Ev.sleepYield]) ∧
    (∀ (s : LoopState) (vals : List Bool) (fr : Except String (List DayPlan))
        (nb : ℚ),
        (loopStep s vals fr nb).2 = StepOut.slept →
        ∃ pre, (loopStep s vals fr nb).1 =
          pre ++ [Ev.armTimeAlarm (s.now + REFRESH_MINUTES * 60),
            Ev.sleepYield]) := by
  constructor
  · intro w e b t
    exact ⟨[Ev.renderLoading, Ev.ledsFill 255 0 0, Ev.wifiConnect,
      Ev.readBattery, Ev.ledsFill 0 0 255, Ev.ledsFill 255 50 0,
      Ev.renderError e b, Ev.ledsFill 0 0 0], rfl⟩
  · intro s vals fr nb hslept
    rcases loopStep_slept_shape s vals fr nb hslept with h | h <;> rw [h]
    · exact ⟨[Ev.ledsFill 0 0 0], rfl⟩
    · exact ⟨flash_neopixels 255 0 0 ++ [Ev.ledsFill 0 0 0], rfl⟩

/-- C9: every successful fetch — the boot-time fetch and every successful
manual refresh — resets the pagination index to 0, and the last event of
the fetch-and-render sequence is `render_day` of page 0. -/
theorem c9_fresh_fetch_resets_page :
    (∀ (w : WakeReason) (ds : List DayPlan) (b t : ℚ),
        (boot w (Except.ok ds) b t).2 =
          some { days := ds, currentPage := 0, batt := b,
                 lastPress := t, lastActivity := t, now := t } ∧
        (boot w (Except.ok ds) b t).1.getLast? = some (Ev.renderDay 0)) ∧
    (∀ (s : LoopState) (vals : List Bool) (ds : List DayPlan) (nb : ℚ),
        s.now - s.lastActivity < IDLE_TIMEOUT_SECONDS →
        firstActive vals = some 2 →
        DEBOUNCE_S ≤ s.now - s.lastPress →
        (loopStep s vals (Except.ok ds) nb).2 =
            StepOut.cont { s with days := ds, batt := nb, currentPage := 0,
                                  lastPress := s.now, lastActivity := s.now,
                                  now := s.now + POLL_INTERVAL_S } ∧
          (loopStep s vals (Except.ok ds) nb).1.getLast? =
            some (Ev.renderDay 0)) := by
  constructor
  · intro w ds b t
    exact ⟨rfl, rfl⟩
  · intro s vals ds nb hidle hact hdeb
    rw [loopStep_refresh_ok s vals ds nb hidle hact hdeb]
    exact ⟨rfl, rfl⟩

/-- C10: if the manual-refresh fetch raises, the failed operation leaves the
soft state untouched — `days`, `current_page` and `batt` keep their previous
values — `render_error` is shown with the old battery reading, no page is
re-rendered, and the loop continues (no sleep yield). -/
theorem c10_refresh_failure_keeps_state (s : LoopState) (vals : List Bool)
    (e : String) (nb : ℚ)
    (hidle : s.now - s.lastActivity < IDLE_TIMEOUT_SECONDS)
    (hact : firstActive vals = some 2)
    (hdeb : DEBOUNCE_S ≤ s.now - s.lastPress) :
    (loopStep s vals (Except.error e) nb).2 =
        StepOut.cont { s with lastPress := s.now, lastActivity := s.now,
                              now := s.now + POLL_INTERVAL_S } ∧
      Ev.renderError e s.batt ∈ (loopStep s vals (Except.error e) nb).1 ∧
      (loopStep s vals (Except.error e) nb).1.countP Ev.isRenderDay = 0 ∧
      Ev.sleepYield ∉ (loopStep s vals (Except.error e) nb).1 := by
  rw [loopStep_refresh_error s vals e nb hidle hact hdeb]
  refine ⟨rfl, ?_, rfl, ?_⟩
  · simp [flash_neopixels]
  · simp [flash_neopixels]

/-- Witness for `c1_fetch_error_paths` at a concrete refresh failure. -/
theorem c1_fetch_error_paths_witness :
    (loopStep sampleState cVals (Except.error "timeout") 4).1.countP
        Ev.isRenderError = 1 ∧
    Ev.sleepYield ∉ (loopStep sampleState cVals (Except.error "timeout") 4).1 ∧
    (loopStep sampleState cVals (Except.error "timeout") 4).2 =
      StepOut.cont { sampleState with lastPress := sampleState.now,
                                      lastActivity := sampleState.now,
                                      now := sampleState.now + POLL_INTERVAL_S } :=
  c1_fetch_error_paths.2 sampleState cVals "timeout" 4
    (by norm_num [sampleState, IDLE_TIMEOUT_SECONDS])
    rfl
    (by norm_num [sampleState, DEBOUNCE_S])

/-- Witness for `c2_last_power_action_led_off` at a concrete idle-timeout
sleep. -/
theorem c2_last_power_action_led_off_witness :
    ∃ pre, (loopStep { entryState with now := 120 } idleVals
          (Except.error "") 0).1 =
        pre ++ [Ev.ledsFill 0 0 0,
          Ev.armTimeAlarm
            (({ entryState with now := (120 : ℚ) } : LoopState).now +
              REFRESH_MINUTES * 60),
          Ev.sleepYield] ∧
      Ev.radioOff ∉ (loopStep { entryState with now := 120 } idleVals
        (Except.error "") 0).1 :=
  c2_last_power_action_led_off.2 { entryState with now := 120 } idleVals
    (Except.error "") 0
    (by
      rw [loopStep_timeout { entryState with now := 120 } idleVals
        (Except.error "") 0 (by norm_num [entryState, IDLE_TIMEOUT_SECONDS])])

/-- Witness for `c3_pagination_clamped`: button A at page 0 is a no-op with
no re-render. -/
theorem c3_pagination_clamped_witness :
    (loopStep sampleState holdAVals (Except.error "x") 0).2 =
        StepOut.cont { sampleState with lastPress := sampleState.now,
                                        lastActivity := sampleState.now,
                                        now := sampleState.now + POLL_INTERVAL_S } ∧
      (loopStep sampleState holdAVals (Except.error "x") 0).1.countP
        Ev.isRenderDay = 0 :=
  c3_pagination_clamped.2.1 sampleState holdAVals (Except.error "x") 0
    (by norm_num [sampleState, IDLE_TIMEOUT_SECONDS])
    rfl
    (by norm_num [sampleState, DEBOUNCE_S])
    rfl

/-- Witness for `c4_debounce_shared_timer`: a poll 0.1 s after the last
reported press reports nothing although button A is active, and a poll
0.5 s after it reports button A with both timers updated. -/
theorem c4_debounce_shared_timer_witness :
    pollButtons holdAVals (1 / 10 : ℚ) 0 0 = ⟨none, 0, 0⟩ ∧
      (firstActive holdAVals = some 0 ∧ DEBOUNCE_S ≤ (1 / 2 : ℚ) - 0 ∧
        pollButtons holdAVals (1 / 2 : ℚ) 0 0 = ⟨some 0, 1 / 2, 1 / 2⟩) :=
  ⟨(c4_debounce_shared_timer holdAVals (1 / 10) 0 0).1
      (by norm_num [DEBOUNCE_S]),
   (c4_debounce_shared_timer holdAVals (1 / 2) 0 0).2 0
      (by norm_num [pollButtons, firstActive, holdAVals, DEBOUNCE_S])⟩

/-- Witness for `c5_level_triggered` at a concrete held button. -/
theorem c5_level_triggered_witness :
    (pollButtons holdAVals (2 / 5 : ℚ) 0 0).pressed = some 0 :=
  (c5_level_triggered holdAVals (2 / 5) 0 0 0 rfl).1 (by norm_num [DEBOUNCE_S])

/-- Witness for `c7_idle_timeout_within_poll` at loop entry. -/
theorem c7_idle_timeout_within_poll_witness :
    runLoop entryState (List.replicate 0 idleInput) =
      ([], StepOut.cont { entryState with
        now := entryState.now + (0 : ℕ) * POLL_INTERVAL_S }) :=
  (c7_idle_timeout_within_poll entryState rfl).1 0 (by norm_num)

/-- Witness for `c8_time_alarm_every_sleep` at a concrete idle-timeout
sleep. -/
theorem c8_time_alarm_every_sleep_witness :
    ∃ pre, (loopStep { entryState with now := 120 } idleVals
          (Except.error "") 0).1 =
        pre ++ [Ev.armTimeAlarm
            (({ entryState with now := (120 : ℚ) } : LoopState).now +
              REFRESH_MINUTES * 60),
          Ev.sleepYield] :=
  c8_time_alarm_every_sleep.2 { entryState with now := 120 } idleVals
    (Except.error "") 0
    (by
      rw [loopStep_timeout { entryState with now := 120 } idleVals
        (Except.error "") 0 (by norm_num [entryState, IDLE_TIMEOUT_SECONDS])])

/-- Witness for `c9_fresh_fetch_resets_page` at a concrete successful
refresh. -/
theorem c9_fresh_fetch_resets_page_witness :
    (loopStep sampleState cVals (Except.ok [sampleDay]) 5).2 =
        StepOut.cont { sampleState with days := [sampleDay], batt := 5,
                                        currentPage := 0,
                                        lastPress := sampleState.now,
                                        lastActivity := sampleState.now,
                                        now := sampleState.now + POLL_INTERVAL_S } ∧
      (loopStep sampleState cVals (Except.ok [sampleDay]) 5).1.getLast? =
        some (Ev.renderDay 0) :=
  c9_fresh_fetch_resets_page.2 sampleState cVals [sampleDay] 5
    (by norm_num [sampleState, IDLE_TIMEOUT_SECONDS])
    rfl
    (by norm_num [sampleState, DEBOUNCE_S])

/-- Witness for `c10_refresh_failure_keeps_state` at a concrete refresh
failure. -/
theorem c10_refresh_failure_keeps_state_witness :
    (loopStep sampleState cVals (Except.error "oops") 5).2 =
        StepOut.cont { sampleState with lastPress := sampleState.now,
                                        lastActivity := sampleState.now,
                                        now := sampleState.now + POLL_INTERVAL_S } ∧
      Ev.renderError "oops" sampleState.batt ∈
        (loopStep sampleState cVals (Except.error "oops") 5).1 ∧
      (loopStep sampleState cVals (Except.error "oops") 5).1.countP
        Ev.isRenderDay = 0 ∧
      Ev.sleepYield ∉ (loopStep sampleState cVals (Except.error "oops") 5).1 :=
  c10_refresh_failure_keeps_state sampleState cVals "oops" 5
    (by norm_num [sampleState, IDLE_TIMEOUT_SECONDS])
    rfl
    (by norm_num [sampleState, DEBOUNCE_S])

end MealPlanner
